import Mathlib

/-!
Verification of the adaptive effectiveness-tracking and lifecycle engine of the
evo-memory server (`dynamic_descriptions.py`, `neo4j_memory.py`, `server.py`).

The Neo4j node set labelled `ToolDescription` is modelled as a list of records;
a Cypher `MATCH ... SET` is a `List.map` that rewrites the matching records, a
`CREATE` appends a record, and `RETURN ... LIMIT 1` reads the first match.
Timestamps (`datetime()`) are supplied as a natural-number `now` argument.
Scores are rationals; the float constants of the source (0.05, 0.02, 0.95, 0.8,
0.4, 0.3, 0.2, 0.1, 0.6, 0.5) appear as the exact fractions they denote.
-/

namespace EvoMemory

/-- A `ToolDescription` node, with the properties written by
`create_tool_description` and the lifecycle operations
(`dynamic_descriptions.py`).  Properties that a node may lack are `Option`s. -/
structure ToolDescription where
  tool_name : String
  version : String
  description : String
  effectiveness_score : ℚ
  access_count : ℕ
  created : ℕ
  last_accessed : Option ℕ
  status : String
  confidence : ℚ
  environment : String
  created_by : Option String
  deprecated_at : Option ℕ := none
  deprecated_by : Option String := none
  deprecation_reason : Option String := none
  reactivated_at : Option ℕ := none
  reactivated_by : Option String := none
  promoted_at : Option ℕ := none
  promoted_by : Option String := none
deriving DecidableEq

/-- An `EVOLVED_TO` relationship created by `create_description_version`. -/
structure EvolutionEdge where
  tool_name : String
  from_version : String
  to_version : String
  environment : String
  evolution_type : String
  created : ℕ
  created_by : String
deriving DecidableEq

/-- The graph store: `ToolDescription` nodes and `EVOLVED_TO` edges. -/
structure Store where
  descs : List ToolDescription
  edges : List EvolutionEdge
deriving DecidableEq

/-- The node pattern `{tool_name: $tool_name, version: $version, environment:
$environment}` used by the lifecycle queries. -/
def matchesKey (d : ToolDescription) (tool_name version environment : String) : Bool :=
  d.tool_name == tool_name && d.version == version && d.environment == environment

/-- The node pattern `{tool_name: $tool_name, environment: $environment,
status: 'active'}` used by `get_tool_description`, `_increment_access_count`
and `record_effectiveness`. -/
def matchesActive (d : ToolDescription) (tool_name environment : String) : Bool :=
  d.tool_name == tool_name && d.environment == environment && d.status == "active"

/-- `records[0]` of a `MATCH` on a (tool_name, version, environment) key. -/
def findKey (tool_name version environment : String) (store : Store) : Option ToolDescription :=
  store.descs.find? (fun d => matchesKey d tool_name version environment)

/-- `_check_existing_description`: `MATCH (desc:ToolDescription {tool_name,
version, environment}) RETURN count(desc) as count` and `count > 0`. -/
def check_existing_description (tool_name version environment : String) (store : Store) : Bool :=
  store.descs.any (fun d => matchesKey d tool_name version environment)

/-- `adjustment = 0.05 if success else -0.02` in `record_effectiveness`. -/
def adjustment (success : Bool) : ℚ :=
  if success then 1/20 else -(1/50)

/-- The `CASE` expression that `record_effectiveness` stores into
`desc.effectiveness_score`: bounds-checked addition of the adjustment. -/
def updateEffectiveness (adj : ℚ) (effectiveness_score : ℚ) : ℚ :=
  if effectiveness_score + adj > 1 then 1
  else if effectiveness_score + adj < 0 then 0
  else effectiveness_score + adj

/-- The `CASE` expression that `record_effectiveness` stores into
`desc.confidence`: usage-volume tiers. -/
def updateConfidence (access_count : ℕ) (confidence : ℚ) : ℚ :=
  if access_count > 10 then 19/20
  else if access_count > 5 then 4/5
  else confidence

/-- `record_effectiveness(tool_name, success, environment)`
(`dynamic_descriptions.py` lines 328-388): one `MATCH ... SET` over every
active node with the given tool name and (resolved) environment. -/
def record_effectiveness (tool_name environment : String) (success : Bool) (store : Store) : Store :=
  { store with descs := store.descs.map (fun d =>
      if matchesActive d tool_name environment then
        { d with
          effectiveness_score := updateEffectiveness (adjustment success) d.effectiveness_score,
          confidence := updateConfidence d.access_count d.confidence }
      else d) }

/-- `_increment_access_count(tool_name, environment, version)`
(`dynamic_descriptions.py` lines 159-195).  The `version` argument is accepted
but does not occur in the Cypher query, exactly as in the source. -/
def increment_access_count (now : ℕ) (tool_name environment version : String) (store : Store) : Store :=
  { store with descs := store.descs.map (fun d =>
      if matchesActive d tool_name environment then
        { d with access_count := d.access_count + 1, last_accessed := some now }
      else d) }

/-- The clamp the specification describes: `clamp(x, 0.0, 1.0)`. -/
def clamp01 (x : ℚ) : ℚ := max 0 (min 1 x)

/-- Folding a sequence of outcome recordings over a single stored score. -/
def applyOutcomes (outcomes : List Bool) (s : ℚ) : ℚ :=
  outcomes.foldl (fun acc b => updateEffectiveness (adjustment b) acc) s

/-- `_load_hardcoded_descriptions` (`dynamic_descriptions.py` lines 45-97):
the static fallback table, keyed by tool name. -/
def fallback_descriptions : List (String × String) :=
  [("search_memories",
    "**PRIMARY DISCOVERY TOOL**: Use this FIRST when user asks about past work, concepts, or relationships. Performs evo-memory discovery through relationship traversal and semantic search rather than full graph reads. Triggers evo strengthening on accessed knowledge. WHEN TO USE: 'What did we work on yesterday?', 'Tell me about X', 'How does Y relate to Z?', 'What do I know about...?'"),
   ("read_graph",
    "**FULL CONTEXT TOOL**: Use ONLY when you need complete system state overview or when search_memories fails to find relevant context. This is computationally expensive and should be avoided for targeted queries. WHEN TO USE: System architecture review, complete knowledge audit, debugging knowledge graph issues. AVOID: Use search_memories instead for specific topic discovery."),
   ("create_entities",
    "**KNOWLEDGE CREATION TOOL**: Create new entities with evo metadata (access_count, confidence, created timestamp). Always include evo metadata and meaningful observations. WHEN TO USE: Learning new concepts, storing insights, capturing project knowledge. Include relationships to existing entities for knowledge integration."),
   ("create_relations",
    "**EVO STRENGTHENING TOOL**: Create relationships between entities to enable knowledge discovery through traversal. Essential for evo-memory patterns. WHEN TO USE: After creating entities, when discovering connections, building knowledge networks. Relationship types: part_of, implements, validates, coordinates_with, etc."),
   ("add_observations",
    "**EVO CONSOLIDATION TOOL**: Add new insights to existing entities, simulating evo strengthening. Update evo metadata (increment access_count, update last_accessed). WHEN TO USE: Learning new details about existing concepts, consolidating session insights, updating project status."),
   ("find_memories_by_name",
    "**DIRECT ACCESS TOOL**: Find specific entities by exact name when you know what you're looking for. More efficient than search_memories for known entity names. WHEN TO USE: Accessing specific projects, methodologies, or entities by name. Triggers evo strengthening on accessed entities."),
   ("delete_entities", "Delete multiple entities and their associated relations."),
   ("delete_observations", "Delete specific observations from entities."),
   ("delete_relations", "Delete multiple relations from the graph.")]

/-- `self.fallback_descriptions.get(tool_name)` on the table above. -/
def lookupFallback (tool_name : String) : Option String :=
  (fallback_descriptions.find? (fun p => p.1 == tool_name)).map Prod.snd

/-- `self.fallback_descriptions.get(tool_name, f"Tool: \x7btool_name\x7d")`:
table entry when present, otherwise the generic per-name default. -/
def fallbackOrDefault (tool_name : String) : String :=
  match lookupFallback tool_name with
  | some d => d
  | none => "Tool: " ++ tool_name

/-- `ORDER BY desc.effectiveness_score DESC LIMIT 1` over the active matches:
the highest-effectiveness active description (ties resolved to the first
matching record, deterministically). -/
def bestActive (tool_name environment : String) (store : Store) : Option ToolDescription :=
  (store.descs.filter (fun d => matchesActive d tool_name environment)).foldl
    (fun acc d => match acc with
      | none => some d
      | some b => if d.effectiveness_score > b.effectiveness_score then some d else some b)
    none

/-- `get_tool_description(tool_name, environment)` (`dynamic_descriptions.py`
lines 99-157).  `environment` is the resolved `env = environment or
self.environment`.  `storeFails` stands for the driver raising (the `except`
branch); the function itself never raises and always produces a string. -/
def get_tool_description (enabled : Bool) (storeFails : Bool) (tool_name environment : String)
    (store : Store) : String :=
  if !enabled then fallbackOrDefault tool_name
  else if storeFails then fallbackOrDefault tool_name
  else
    match bestActive tool_name environment store with
    | some d => d.description
    | none => fallbackOrDefault tool_name

/-- A `ToolDescriptionModel` built with the defaults of
`description_schemas.py`: `effectiveness_score=0.0`, `access_count=0`,
`confidence=0.5`, `last_accessed=None`. -/
def toolDescriptionModel (now : ℕ) (tool_name version description environment created_by status : String) :
    ToolDescription :=
  { tool_name := tool_name
    version := version
    description := description
    effectiveness_score := 0
    access_count := 0
    created := now
    last_accessed := none
    status := status
    confidence := 1/2
    environment := environment
    created_by := some created_by }

/-- `create_tool_description` (`dynamic_descriptions.py` lines 197-255): a
plain Cypher `CREATE`, which appends a node; the `RETURN` always yields one
record, so the function reports success. -/
def create_tool_description (model : ToolDescription) (store : Store) : Bool × Store :=
  (true, { store with descs := store.descs ++ [model] })

/-- Result of `seed_initial_descriptions`: the `created` and `skipped` tool
names and the resulting store (`failed` cannot occur in the model because
`create_tool_description` always reports success). -/
structure SeedResult where
  created : List String
  skipped : List String
  store : Store
deriving DecidableEq

/-- The `for tool_name, description_text in self.fallback_descriptions.items()`
loop body of `seed_initial_descriptions`. -/
def seedLoop (now : ℕ) (environment : String) (overwrite : Bool) :
    List (String × String) → Store → SeedResult
  | [], store => ⟨[], [], store⟩
  | (tool_name, description_text) :: rest, store =>
    if check_existing_description tool_name "1.0" environment store && !overwrite then
      let r := seedLoop now environment overwrite rest store
      ⟨r.created, tool_name :: r.skipped, r.store⟩
    else
      let model := toolDescriptionModel now tool_name "1.0" description_text environment
        "system_seeding" "active"
      let r := seedLoop now environment overwrite rest (create_tool_description model store).2
      ⟨tool_name :: r.created, r.skipped, r.store⟩

/-- `seed_initial_descriptions(overwrite)` (`dynamic_descriptions.py` lines
560-659), with the enabled path taken. -/
def seed_initial_descriptions (now : ℕ) (environment : String) (overwrite : Bool)
    (store : Store) : SeedResult :=
  seedLoop now environment overwrite fallback_descriptions store

/-- Status discriminator returned by `mark_tool_description_deprecated`;
`already_deprecated` carries the `deprecated_at` read back from the store and
`deprecated` carries the freshly written timestamp. -/
inductive DeprecateStatus where
  | not_found : DeprecateStatus
  | already_deprecated : Option ℕ → DeprecateStatus
  | deprecated : ℕ → DeprecateStatus
deriving DecidableEq

/-- The `SET` clause of the deprecation query. -/
def deprecateUpdate (now : ℕ) (deprecated_by reason : String) (e : ToolDescription) :
    ToolDescription :=
  { e with
    status := "deprecated"
    deprecated_at := some now
    deprecated_by := some deprecated_by
    deprecation_reason := some reason }

/-- `mark_tool_description_deprecated(tool_name, version, reason,
deprecated_by, environment)` (`dynamic_descriptions.py` lines 779-896).
`environment` is the resolved target environment.  The source performs no
validation of `reason`; whatever string is passed is stored. -/
def mark_tool_description_deprecated (now : ℕ)
    (tool_name version reason deprecated_by environment : String) (store : Store) :
    DeprecateStatus × Store :=
  match findKey tool_name version environment store with
  | none => (DeprecateStatus.not_found, store)
  | some d =>
    if d.status == "deprecated" then
      (DeprecateStatus.already_deprecated d.deprecated_at, store)
    else
      (DeprecateStatus.deprecated now,
       { store with descs := store.descs.map (fun e =>
          if matchesKey e tool_name version environment then
            deprecateUpdate now deprecated_by reason e
          else e) })

/-- Status discriminator of the promote operation. -/
inductive PromoteStatus where
  | not_found : PromoteStatus
  | invalid_transition : String → PromoteStatus
  | promoted : PromoteStatus
deriving DecidableEq

/-- Modelled from the spec: the promote transition's entry action,
recording `promoted_at` and `promoted_by` and entering `active`. -/
def promoteUpdate (now : ℕ) (promoted_by : String) (e : ToolDescription) : ToolDescription :=
  { e with
    status := "active"
    promoted_at := some now
    promoted_by := some promoted_by }

/-- Modelled from the spec: `promote_testing_to_active` is invoked on the
description manager from the server layer (`server.py` lines 426-448) but its
implementation is absent from the sources.  Per spec section 4.1,
`promote(testing to active)` is allowed only from `testing`, records
`promoted_at` and `promoted_by`, fails with `InvalidTransition` when the
current state is not `testing`, and reports `NotFound` for a missing key. -/
def promote_testing_to_active (now : ℕ) (tool_name version promoted_by environment : String)
    (store : Store) : PromoteStatus × Store :=
  match findKey tool_name version environment store with
  | none => (PromoteStatus.not_found, store)
  | some d =>
    if d.status == "testing" then
      (PromoteStatus.promoted,
       { store with descs := store.descs.map (fun e =>
          if matchesKey e tool_name version environment then
            promoteUpdate now promoted_by e
          else e) })
    else
      (PromoteStatus.invalid_transition d.status, store)

/-- Status discriminator returned by `create_description_version`. -/
inductive VersionStatus where
  | base_not_found : VersionStatus
  | version_exists : VersionStatus
  | created : VersionStatus
deriving DecidableEq

/-- `create_description_version(tool_name, base_version, new_version,
new_description, created_by, environment)` (`dynamic_descriptions.py` lines
1015-1161): check the base version, then the new key, then `CREATE` the new
`testing` node and the `EVOLVED_TO` edge (one edge per pair of base and new
matches, as the double `MATCH` of the evolution query produces). -/
def create_description_version (now : ℕ)
    (tool_name base_version new_version new_description created_by environment : String)
    (store : Store) : VersionStatus × Store :=
  if !(store.descs.any (fun d => matchesKey d tool_name base_version environment)) then
    (VersionStatus.base_not_found, store)
  else if check_existing_description tool_name new_version environment store then
    (VersionStatus.version_exists, store)
  else
    let model := toolDescriptionModel now tool_name new_version new_description environment
      created_by "testing"
    let store1 := (create_tool_description model store).2
    let bases := store1.descs.filter (fun d => matchesKey d tool_name base_version environment)
    let news := store1.descs.filter (fun d => matchesKey d tool_name new_version environment)
    let newEdges := bases.flatMap (fun _ => news.map (fun _ =>
      ({ tool_name := tool_name
         from_version := base_version
         to_version := new_version
         environment := environment
         evolution_type := "version_evolution"
         created := now
         created_by := created_by } : EvolutionEdge)))
    (VersionStatus.created, { store1 with edges := store1.edges ++ newEdges })

/-- A `Memory` node as the discovery query of `load_graph`
(`neo4j_memory.py` lines 57-105) sees it: the evo-metadata properties may be
absent and are defaulted with `coalesce`. -/
structure EntityNode where
  name : String
  access_count : Option ℕ
  confidence : Option ℚ
  effectiveness_score : Option ℚ
  status : Option String
  last_accessed : Option ℕ
deriving DecidableEq

/-- The status-weight `CASE` of the discovery query. -/
def statusWeight (status : String) : ℚ :=
  if status == "active" then 1
  else if status == "testing" then 4/5
  else if status == "deprecated" then 2/5
  else 3/5

/-- The evo-strengthening `SET` that opens the discovery query:
`access_count = coalesce(access_count, 0) + 1`, `last_accessed = datetime()`. -/
def strengthenEntity (now : ℕ) (e : EntityNode) : EntityNode :=
  { e with access_count := some (e.access_count.getD 0 + 1), last_accessed := some now }

/-- The multi-dimensional discovery score of the query, evaluated on a
strengthened entity: `conf * 0.4 + eff * 0.3 + usage_factor * 0.2 +
status_weight * 0.1` with `usage_factor = log(coalesce(access_count, 0) + 1)`.
The natural logarithm of the external store is passed in as `log`. -/
def discoveryScore (log : ℕ → ℚ) (e : EntityNode) : ℚ :=
  e.confidence.getD (1/2) * (2/5) + e.effectiveness_score.getD 0 * (3/10)
    + log (e.access_count.getD 0 + 1) * (1/5) + statusWeight (e.status.getD "active") * (1/10)

/-- The comparator of `ORDER BY discovery_score DESC, score DESC` on pairs of
an entity and its raw textual match score. -/
def rankLe (log : ℕ → ℚ) (x y : EntityNode × ℚ) : Bool :=
  decide (discoveryScore log x.1 > discoveryScore log y.1 ∨
    (discoveryScore log x.1 = discoveryScore log y.1 ∧ x.2 ≥ y.2))

/-- The candidate pipeline of `load_graph`: strengthen every entity returned
by the full-text match, then order by discovery score descending with the raw
match score as tie-break. -/
def rankEntities (log : ℕ → ℚ) (now : ℕ) (candidates : List (EntityNode × ℚ)) :
    List (EntityNode × ℚ) :=
  (candidates.map (fun p => (strengthenEntity now p.1, p.2))).mergeSort (rankLe log)

/-! ## Helper lemmas -/

theorem updateEffectiveness_eq_clamp01 (adj s : ℚ) :
    updateEffectiveness adj s = clamp01 (s + adj) := by
  unfold updateEffectiveness clamp01
  split_ifs with h1 h2
  · rw [min_eq_left h1.le, max_eq_right zero_le_one]
  · rw [min_eq_right (by linarith), max_eq_left (by linarith)]
  · rw [min_eq_right (by linarith), max_eq_right (by linarith)]

theorem updateEffectiveness_bounds (adj s : ℚ) :
    0 ≤ updateEffectiveness adj s ∧ updateEffectiveness adj s ≤ 1 := by
  unfold updateEffectiveness
  split_ifs with h1 h2
  · exact ⟨zero_le_one, le_refl 1⟩
  · exact ⟨le_refl 0, zero_le_one⟩
  · constructor <;> linarith

theorem applyOutcomes_cons (b : Bool) (l : List Bool) (s : ℚ) :
    applyOutcomes (b :: l) s = applyOutcomes l (updateEffectiveness (adjustment b) s) := rfl

theorem applyOutcomes_bounds (outcomes : List Bool) :
    ∀ s : ℚ, 0 ≤ s → s ≤ 1 → 0 ≤ applyOutcomes outcomes s ∧ applyOutcomes outcomes s ≤ 1 := by
  induction outcomes with
  | nil => exact fun s h0 h1 => ⟨h0, h1⟩
  | cons b rest ih =>
    intro s h0 h1
    rw [applyOutcomes_cons]
    exact ih _ (updateEffectiveness_bounds (adjustment b) s).1
      (updateEffectiveness_bounds (adjustment b) s).2

theorem applyOutcomes_replicate_true (n : ℕ) :
    ∀ s : ℚ, 0 ≤ s → s ≤ 1 →
      applyOutcomes (List.replicate n true) s = min 1 (s + n * (1/20)) := by
  induction n with
  | zero =>
    intro s h0 h1
    simp [applyOutcomes, min_eq_right h1]
  | succ n ih =>
    intro s h0 h1
    rw [List.replicate_succ, applyOutcomes_cons, show adjustment true = 1/20 from rfl]
    have hn : (0:ℚ) ≤ (n : ℚ) := Nat.cast_nonneg n
    have hn20 : (0:ℚ) ≤ (n : ℚ) * (1/20) := by positivity
    by_cases h : s + 1/20 > 1
    · have hu : updateEffectiveness (1/20) s = 1 := by
        unfold updateEffectiveness; rw [if_pos h]
      rw [hu, ih 1 zero_le_one le_rfl, min_eq_left (by linarith),
        min_eq_left (by push_cast; linarith)]
    · have hpos : ¬ (s + 1/20 < 0) := by linarith
      have hu : updateEffectiveness (1/20) s = s + 1/20 := by
        unfold updateEffectiveness; rw [if_neg h, if_neg hpos]
      rw [hu, ih (s + 1/20) (by linarith) (by linarith)]
      congr 1
      push_cast
      ring

theorem record_effectiveness_mem (tool_name environment : String) (success : Bool)
    (store : Store) (d : ToolDescription) (hd : d ∈ store.descs)
    (hm : matchesActive d tool_name environment = true) :
    { d with
      effectiveness_score := clamp01 (d.effectiveness_score + adjustment success),
      confidence := updateConfidence d.access_count d.confidence } ∈
      (record_effectiveness tool_name environment success store).descs := by
  unfold record_effectiveness
  refine List.mem_map.mpr ⟨d, hd, ?_⟩
  simp only [hm, if_true, updateEffectiveness_eq_clamp01]

/-! ## Claim C1 -/

/-- C1: every active description matched by `record_effectiveness` gets score
`clamp(current + adjustment, 0, 1)` with adjustment `+0.05` on success and
`-0.02` on failure; under any sequence of outcome recordings a score starting
in `[0,1]` stays in `[0,1]`; 100 consecutive successful recordings from any
starting score in `[0,1]` yield exactly `1`. -/
theorem C1_effectiveness_clamp_bounds_convergence :
    (adjustment true = 5/100 ∧ adjustment false = -(2/100)) ∧
    (∀ adj s : ℚ, updateEffectiveness adj s = clamp01 (s + adj)) ∧
    (∀ (tool_name environment : String) (success : Bool) (store : Store) (d : ToolDescription),
      d ∈ store.descs → matchesActive d tool_name environment = true →
      { d with
        effectiveness_score := clamp01 (d.effectiveness_score + adjustment success),
        confidence := updateConfidence d.access_count d.confidence } ∈
        (record_effectiveness tool_name environment success store).descs) ∧
    (∀ (outcomes : List Bool) (s : ℚ), 0 ≤ s → s ≤ 1 →
      0 ≤ applyOutcomes outcomes s ∧ applyOutcomes outcomes s ≤ 1) ∧
    (∀ s : ℚ, 0 ≤ s → s ≤ 1 → applyOutcomes (List.replicate 100 true) s = 1) := by
  refine ⟨⟨by norm_num [adjustment], by norm_num [adjustment]⟩,
    updateEffectiveness_eq_clamp01,
    record_effectiveness_mem,
    fun outcomes s h0 h1 => applyOutcomes_bounds outcomes s h0 h1,
    fun s h0 h1 => ?_⟩
  rw [applyOutcomes_replicate_true 100 s h0 h1, min_eq_left (by push_cast; linarith)]

/-- Concrete description used by the C1 witness. -/
def c1Desc : ToolDescription :=
  toolDescriptionModel 0 "search_memories" "1.0" "text" "production" "system_seeding" "active"

theorem C1_effectiveness_clamp_bounds_convergence_witness :
    (0 ≤ applyOutcomes [true, false, true] (1/2) ∧ applyOutcomes [true, false, true] (1/2) ≤ 1) ∧
    applyOutcomes (List.replicate 100 true) (1/3) = 1 ∧
    { c1Desc with
      effectiveness_score := clamp01 (c1Desc.effectiveness_score + adjustment true),
      confidence := updateConfidence c1Desc.access_count c1Desc.confidence } ∈
      (record_effectiveness "search_memories" "production" true (Store.mk [c1Desc] [])).descs :=
  ⟨C1_effectiveness_clamp_bounds_convergence.2.2.2.1 [true, false, true] (1/2)
      (by norm_num) (by norm_num),
   C1_effectiveness_clamp_bounds_convergence.2.2.2.2 (1/3) (by norm_num) (by norm_num),
   C1_effectiveness_clamp_bounds_convergence.2.2.1 "search_memories" "production" true
      (Store.mk [c1Desc] []) c1Desc (by simp) (by decide)⟩

/-! ## Claim C4 -/

/-- Concrete description showing the confidence tier overwrite: access count 7
and stored confidence 0.9. -/
def c4Desc : ToolDescription :=
  { toolDescriptionModel 0 "search_memories" "1.0" "text" "production" "system_seeding" "active" with
    access_count := 7, confidence := 9/10 }

/-- C4 counterexample: an active description with `access_count = 7` and
confidence `0.9` has its confidence lowered to `0.8` by an outcome recording,
so the stored confidence is not monotonically non-decreasing for every
starting confidence in `[0,1]`. -/
theorem C4_counterexample :
    (record_effectiveness "search_memories" "production" true (Store.mk [c4Desc] [])).descs.map
        ToolDescription.confidence = [4/5] ∧ (4/5 : ℚ) < 9/10 := by
  constructor
  · rfl
  · norm_num

/-- C4 (amended): outcome recording sets confidence to 0.95 when
`access_count > 10`, to 0.8 when `5 < access_count ≤ 10`, and leaves it
unchanged otherwise; this is non-decreasing for every starting confidence at
most 0.8 (but can lower a starting confidence above the applicable tier). -/
theorem C4_confidence_tiers_monotone_below :
    (∀ (a : ℕ) (c : ℚ), 10 < a → updateConfidence a c = 19/20) ∧
    (∀ (a : ℕ) (c : ℚ), 5 < a → a ≤ 10 → updateConfidence a c = 4/5) ∧
    (∀ (a : ℕ) (c : ℚ), a ≤ 5 → updateConfidence a c = c) ∧
    (∀ (a : ℕ) (c : ℚ), c ≤ 4/5 → c ≤ updateConfidence a c) ∧
    (∀ (tool_name environment : String) (success : Bool) (store : Store) (d : ToolDescription),
      d ∈ store.descs → matchesActive d tool_name environment = true →
      { d with
        effectiveness_score := clamp01 (d.effectiveness_score + adjustment success),
        confidence := updateConfidence d.access_count d.confidence } ∈
        (record_effectiveness tool_name environment success store).descs) := by
  refine ⟨fun a c ha => ?_, fun a c ha hb => ?_, fun a c ha => ?_, fun a c hc => ?_,
    record_effectiveness_mem⟩
  · unfold updateConfidence; rw [if_pos ha]
  · unfold updateConfidence; rw [if_neg (by omega), if_pos ha]
  · unfold updateConfidence; rw [if_neg (by omega), if_neg (by omega)]
  · unfold updateConfidence
    split_ifs with h1 h2
    · linarith
    · exact hc
    · exact le_refl c

theorem C4_confidence_tiers_monotone_below_witness :
    updateConfidence 12 (1/2) = 19/20 ∧ updateConfidence 7 (1/2) = 4/5 ∧
    updateConfidence 3 (1/2) = 1/2 ∧ (1/2 : ℚ) ≤ updateConfidence 7 (1/2) :=
  ⟨C4_confidence_tiers_monotone_below.1 12 (1/2) (by norm_num),
   C4_confidence_tiers_monotone_below.2.1 7 (1/2) (by norm_num) (by norm_num),
   C4_confidence_tiers_monotone_below.2.2.1 3 (1/2) (by norm_num),
   C4_confidence_tiers_monotone_below.2.2.2.1 7 (1/2) (by norm_num)⟩

/-! ## Claim C10 -/

/-- C10: `_increment_access_count` and `record_effectiveness` update exactly
the active descriptions matching (tool_name, environment) and no other node;
the `version` argument of `_increment_access_count` is irrelevant to the
update, and all matching active versions are updated at once. -/
theorem C10_version_agnostic_frame :
    (∀ (now : ℕ) (tool_name environment v1 v2 : String) (store : Store),
      increment_access_count now tool_name environment v1 store =
        increment_access_count now tool_name environment v2 store) ∧
    (∀ (now : ℕ) (tool_name environment version : String) (store : Store),
      (increment_access_count now tool_name environment version store).descs.length =
        store.descs.length) ∧
    (∀ (now : ℕ) (tool_name environment version : String) (store : Store)
        (i : Fin store.descs.length)
        (h2 : (i : ℕ) < (increment_access_count now tool_name environment version store).descs.length),
      (matchesActive (store.descs.get i) tool_name environment = true →
        (increment_access_count now tool_name environment version store).descs.get ⟨i, h2⟩ =
          { store.descs.get i with
            access_count := (store.descs.get i).access_count + 1,
            last_accessed := some now }) ∧
      (matchesActive (store.descs.get i) tool_name environment = false →
        (increment_access_count now tool_name environment version store).descs.get ⟨i, h2⟩ =
          store.descs.get i)) ∧
    (∀ (tool_name environment : String) (success : Bool) (store : Store)
        (i : Fin store.descs.length)
        (h2 : (i : ℕ) < (record_effectiveness tool_name environment success store).descs.length),
      (matchesActive (store.descs.get i) tool_name environment = true →
        (record_effectiveness tool_name environment success store).descs.get ⟨i, h2⟩ =
          { store.descs.get i with
            effectiveness_score :=
              updateEffectiveness (adjustment success) (store.descs.get i).effectiveness_score,
            confidence :=
              updateConfidence (store.descs.get i).access_count (store.descs.get i).confidence }) ∧
      (matchesActive (store.descs.get i) tool_name environment = false →
        (record_effectiveness tool_name environment success store).descs.get ⟨i, h2⟩ =
          store.descs.get i)) := by
  refine ⟨fun now tool_name environment v1 v2 store => rfl,
    fun now tool_name environment version store => by simp [increment_access_count],
    fun now tool_name environment version store i h2 => ⟨fun hm => ?_, fun hm => ?_⟩,
    fun tool_name environment success store i h2 => ⟨fun hm => ?_, fun hm => ?_⟩⟩
  · simp only [increment_access_count, List.get_eq_getElem, List.getElem_map]
    rw [if_pos (by simpa using hm)]
  · simp only [increment_access_count, List.get_eq_getElem, List.getElem_map]
    rw [if_neg (by simp only [List.get_eq_getElem] at hm; simp [hm])]
  · simp only [record_effectiveness, List.get_eq_getElem, List.getElem_map]
    rw [if_pos (by simpa using hm)]
  · simp only [record_effectiveness, List.get_eq_getElem, List.getElem_map]
    rw [if_neg (by simp only [List.get_eq_getElem] at hm; simp [hm])]

/-- First active version used by the C10 witness. -/
def c10Desc1 : ToolDescription :=
  toolDescriptionModel 0 "t" "1.0" "a" "production" "system_seeding" "active"

/-- Second active version used by the C10 witness. -/
def c10Desc2 : ToolDescription :=
  toolDescriptionModel 0 "t" "2.0" "b" "production" "system_seeding" "active"

/-- Store with two active versions of one tool, for the C10 witness. -/
def c10Store : Store := Store.mk [c10Desc1, c10Desc2] []

theorem C10_version_agnostic_frame_witness :
    increment_access_count 3 "t" "production" "1.0" c10Store =
      increment_access_count 3 "t" "production" "2.0" c10Store ∧
    (increment_access_count 3 "t" "production" "1.0" c10Store).descs.get ⟨1, by decide⟩ =
      { c10Desc2 with access_count := c10Desc2.access_count + 1, last_accessed := some 3 } :=
  ⟨C10_version_agnostic_frame.1 3 "t" "production" "1.0" "2.0" c10Store,
   (C10_version_agnostic_frame.2.2.1 3 "t" "production" "1.0" c10Store ⟨1, by decide⟩
      (by decide)).1 (by decide)⟩

/-! ## Key-preserving updates and `find?` -/

theorem find?_map_key_preserving (tool_name version environment : String)
    (l : List ToolDescription) (f : ToolDescription → ToolDescription)
    (hf : ∀ d, matchesKey (f d) tool_name version environment =
      matchesKey d tool_name version environment) :
    (l.map (fun d => if matchesKey d tool_name version environment then f d else d)).find?
        (fun d => matchesKey d tool_name version environment) =
      (l.find? (fun d => matchesKey d tool_name version environment)).map f := by
  induction l with
  | nil => rfl
  | cons a l ih =>
    rw [List.map_cons]
    by_cases h : matchesKey a tool_name version environment = true
    · rw [if_pos h,
        List.find?_cons_of_pos (p := fun d => matchesKey d tool_name version environment) _
          ((hf a).trans h),
        List.find?_cons_of_pos (p := fun d => matchesKey d tool_name version environment) _ h,
        Option.map_some']
    · rw [if_neg h,
        List.find?_cons_of_neg (p := fun d => matchesKey d tool_name version environment) _ h,
        List.find?_cons_of_neg (p := fun d => matchesKey d tool_name version environment) _ h,
        ih]

/-! ## Claim C6 -/

/-- C6: after a deprecation that reports `deprecated`, a second deprecation of
the same key reports `already_deprecated`, carries the `deprecated_at`
recorded by the first call, and leaves the store exactly as the first call
left it. -/
theorem C6_deprecate_idempotent (now1 now2 : ℕ)
    (tool_name version reason1 reason2 by1 by2 environment : String) (store s1 : Store)
    (h : mark_tool_description_deprecated now1 tool_name version reason1 by1 environment store =
      (DeprecateStatus.deprecated now1, s1)) :
    mark_tool_description_deprecated now2 tool_name version reason2 by2 environment s1 =
      (DeprecateStatus.already_deprecated (some now1), s1) := by
  unfold mark_tool_description_deprecated at h
  cases hf : findKey tool_name version environment store with
  | none =>
    rw [hf] at h
    simp only [] at h
    rw [Prod.mk.injEq] at h
    exact DeprecateStatus.noConfusion h.1
  | some d =>
    rw [hf] at h
    simp only [] at h
    by_cases hs : (d.status == "deprecated") = true
    · rw [if_pos hs, Prod.mk.injEq] at h
      exact DeprecateStatus.noConfusion h.1
    · rw [if_neg hs, Prod.mk.injEq] at h
      obtain ⟨h1, h2⟩ := h
      subst h2
      have hFind : findKey tool_name version environment
          { store with descs := store.descs.map (fun e =>
            if matchesKey e tool_name version environment then
              deprecateUpdate now1 by1 reason1 e
            else e) } =
          some (deprecateUpdate now1 by1 reason1 d) := by
        show (store.descs.map (fun e =>
            if matchesKey e tool_name version environment then
              deprecateUpdate now1 by1 reason1 e
            else e)).find? (fun d => matchesKey d tool_name version environment) =
          some (deprecateUpdate now1 by1 reason1 d)
        rw [find?_map_key_preserving tool_name version environment store.descs
          (deprecateUpdate now1 by1 reason1) (fun d => rfl)]
        have hf' : store.descs.find? (fun d => matchesKey d tool_name version environment) =
            some d := hf
        rw [hf', Option.map_some']
      unfold mark_tool_description_deprecated
      rw [hFind]
      rfl

/-- Description used by the C6 witness. -/
def c6Desc : ToolDescription :=
  toolDescriptionModel 0 "t" "1.0" "text" "production" "user" "active"

/-- Store before the first deprecation, for the C6 witness. -/
def c6Store : Store := Store.mk [c6Desc] []

/-- Store after the first deprecation, for the C6 witness. -/
def c6StoreAfter : Store :=
  Store.mk [deprecateUpdate 1 "admin" "old" c6Desc] []

theorem C6_deprecate_idempotent_witness :
    mark_tool_description_deprecated 2 "t" "1.0" "again" "admin2" "production" c6StoreAfter =
      (DeprecateStatus.already_deprecated (some 1), c6StoreAfter) :=
  C6_deprecate_idempotent 1 2 "t" "1.0" "old" "again" "admin" "admin2" "production"
    c6Store c6StoreAfter rfl

/-! ## Claim C7 -/

/-- Description used by the C7 counterexample and witness. -/
def c7Desc : ToolDescription :=
  toolDescriptionModel 0 "t" "1.0" "text" "production" "user" "active"

/-- Store holding one active description, for the C7 counterexample. -/
def c7Store : Store := Store.mk [c7Desc] []

/-- C7 counterexample: deprecating an existing active key with an empty
reason does not fail — it reports `deprecated` and records the empty string
in `deprecation_reason`, changing the store; no `ValidationError` exists on
this path in the code. -/
theorem C7_counterexample :
    (mark_tool_description_deprecated 5 "t" "1.0" "" "user" "production" c7Store).1 =
      DeprecateStatus.deprecated 5 ∧
    (mark_tool_description_deprecated 5 "t" "1.0" "" "user" "production" c7Store).2.descs.map
        ToolDescription.deprecation_reason = [some ""] ∧
    c7Store.descs.map ToolDescription.deprecation_reason = [none] :=
  ⟨rfl, rfl, rfl⟩

/-- C7 (amended): `mark_tool_description_deprecated` performs no validation of
`reason`: for every existing non-deprecated key and every reason string —
the empty string included — the call reports `deprecated` and records the
given reason verbatim in `deprecation_reason` (together with `deprecated_at`
and `deprecated_by`). -/
theorem C7_deprecate_accepts_any_reason (now : ℕ)
    (tool_name version reason deprecated_by environment : String) (store : Store)
    (d : ToolDescription)
    (hfind : findKey tool_name version environment store = some d)
    (hnd : (d.status == "deprecated") = false) :
    (mark_tool_description_deprecated now tool_name version reason deprecated_by environment
        store).1 = DeprecateStatus.deprecated now ∧
    findKey tool_name version environment
        (mark_tool_description_deprecated now tool_name version reason deprecated_by environment
          store).2 =
      some { d with
        status := "deprecated"
        deprecated_at := some now
        deprecated_by := some deprecated_by
        deprecation_reason := some reason } := by
  unfold mark_tool_description_deprecated
  rw [hfind]
  simp only []
  have hcond : ¬ ((d.status == "deprecated") = true) := by
    rw [hnd]; exact Bool.false_ne_true
  rw [if_neg hcond]
  refine ⟨rfl, ?_⟩
  show (store.descs.map (fun e =>
      if matchesKey e tool_name version environment then
        deprecateUpdate now deprecated_by reason e
      else e)).find? (fun d => matchesKey d tool_name version environment) =
    some { d with
      status := "deprecated"
      deprecated_at := some now
      deprecated_by := some deprecated_by
      deprecation_reason := some reason }
  rw [find?_map_key_preserving tool_name version environment store.descs
    (deprecateUpdate now deprecated_by reason) (fun d => rfl)]
  have hf' : store.descs.find? (fun d => matchesKey d tool_name version environment) =
      some d := hfind
  rw [hf', Option.map_some']
  rfl

theorem C7_deprecate_accepts_any_reason_witness :
    (mark_tool_description_deprecated 5 "t" "1.0" "" "user" "production" c7Store).1 =
      DeprecateStatus.deprecated 5 ∧
    findKey "t" "1.0" "production"
        (mark_tool_description_deprecated 5 "t" "1.0" "" "user" "production" c7Store).2 =
      some { c7Desc with
        status := "deprecated"
        deprecated_at := some 5
        deprecated_by := some "user"
        deprecation_reason := some "" } :=
  C7_deprecate_accepts_any_reason 5 "t" "1.0" "" "user" "production" c7Store c7Desc rfl rfl

/-! ## Claim C3 -/

/-- C3 (spec-modelled): promotion succeeds exactly from `testing` — the key
transitions to `active` with `promoted_at`/`promoted_by` recorded — and
reports `InvalidTransition` without touching the store when the current
state is not `testing`. -/
theorem C3_promote_only_from_testing (now : ℕ)
    (tool_name version promoted_by environment : String) (store : Store) (d : ToolDescription)
    (hfind : findKey tool_name version environment store = some d) :
    (d.status = "testing" →
      (promote_testing_to_active now tool_name version promoted_by environment store).1 =
        PromoteStatus.promoted ∧
      findKey tool_name version environment
          (promote_testing_to_active now tool_name version promoted_by environment store).2 =
        some { d with
          status := "active"
          promoted_at := some now
          promoted_by := some promoted_by }) ∧
    (d.status ≠ "testing" →
      promote_testing_to_active now tool_name version promoted_by environment store =
        (PromoteStatus.invalid_transition d.status, store)) := by
  unfold promote_testing_to_active
  rw [hfind]
  simp only []
  constructor
  · intro ht
    have hcond : (d.status == "testing") = true := by rw [ht]; rfl
    rw [if_pos hcond]
    refine ⟨rfl, ?_⟩
    show (store.descs.map (fun e =>
        if matchesKey e tool_name version environment then
          promoteUpdate now promoted_by e
        else e)).find? (fun d => matchesKey d tool_name version environment) =
      some { d with
        status := "active"
        promoted_at := some now
        promoted_by := some promoted_by }
    rw [find?_map_key_preserving tool_name version environment store.descs
      (promoteUpdate now promoted_by) (fun d => rfl)]
    have hf' : store.descs.find? (fun d => matchesKey d tool_name version environment) =
        some d := hfind
    rw [hf', Option.map_some']
    rfl
  · intro ht
    have hcond : ¬ ((d.status == "testing") = true) := by
      intro hcontra
      exact ht (by simpa using hcontra)
    rw [if_neg hcond]

/-- Testing-state description used by the C3 witness. -/
def c3Desc : ToolDescription :=
  toolDescriptionModel 0 "t" "2.0" "text" "production" "user" "testing"

/-- Store holding a testing description, for the C3 witness. -/
def c3Store : Store := Store.mk [c3Desc] []

/-- Store holding an active description, for the C3 witness. -/
def c3StoreActive : Store := Store.mk [{ c3Desc with status := "active" }] []

theorem C3_promote_only_from_testing_witness :
    ((promote_testing_to_active 4 "t" "2.0" "admin" "production" c3Store).1 =
      PromoteStatus.promoted ∧
     findKey "t" "2.0" "production"
        (promote_testing_to_active 4 "t" "2.0" "admin" "production" c3Store).2 =
      some { c3Desc with
        status := "active"
        promoted_at := some 4
        promoted_by := some "admin" }) ∧
    promote_testing_to_active 9 "t" "2.0" "x" "production" c3StoreActive =
      (PromoteStatus.invalid_transition ({ c3Desc with status := "active" } : ToolDescription).status,
        c3StoreActive) :=
  ⟨(C3_promote_only_from_testing 4 "t" "2.0" "admin" "production" c3Store c3Desc rfl).1 rfl,
   (C3_promote_only_from_testing 9 "t" "2.0" "x" "production" c3StoreActive
      { c3Desc with status := "active" } rfl).2 (by decide)⟩

/-! ## Claim C5 -/

/-- C5 (amended): when the base version exists and the target new key already
exists, `create_description_version` reports `version_exists` and leaves the
store untouched — no duplicate artifact and no evolution edge is created.
(When the base is missing the call reports `base_not_found` instead, also
leaving the store untouched.) -/
theorem C5_version_exists_guard (now : ℕ)
    (tool_name base_version new_version new_description created_by environment : String)
    (store : Store)
    (hbase : store.descs.any (fun d => matchesKey d tool_name base_version environment) = true)
    (hnew : check_existing_description tool_name new_version environment store = true) :
    create_description_version now tool_name base_version new_version new_description created_by
        environment store = (VersionStatus.version_exists, store) := by
  unfold create_description_version
  rw [hbase, hnew]
  rfl

/-- Description occupying the target key "2.0", for the C5 counterexample. -/
def c5Desc : ToolDescription :=
  toolDescriptionModel 0 "t" "2.0" "text" "production" "user" "testing"

/-- Store holding only the target key (no base version), for the C5
counterexample. -/
def c5Store : Store := Store.mk [c5Desc] []

/-- C5 counterexample: with the target new key present but the base version
absent, `create_description_version` reports `base_not_found`, not
`version_exists` — the base check runs first. -/
theorem C5_counterexample :
    check_existing_description "t" "2.0" "production" c5Store = true ∧
    create_description_version 7 "t" "1.0" "2.0" "new text" "user" "production" c5Store =
      (VersionStatus.base_not_found, c5Store) :=
  ⟨rfl, rfl⟩

/-- Base description for the C5 witness. -/
def c5Base : ToolDescription :=
  toolDescriptionModel 0 "t" "1.0" "base text" "production" "user" "active"

/-- Store holding both the base version and the target key, for the C5
witness. -/
def c5StoreBoth : Store := Store.mk [c5Base, c5Desc] []

theorem C5_version_exists_guard_witness :
    create_description_version 7 "t" "1.0" "2.0" "new text" "user" "production" c5StoreBoth =
      (VersionStatus.version_exists, c5StoreBoth) :=
  C5_version_exists_guard 7 "t" "1.0" "2.0" "new text" "user" "production" c5StoreBoth rfl rfl

/-! ## Claim C8 -/

theorem append_tool_ne_empty (t : String) : "Tool: " ++ t ≠ "" := by
  intro hcontra
  have hlen := congrArg String.length hcontra
  rw [String.length_append] at hlen
  have h6 : ("Tool: " : String).length = 6 := by decide
  have h0 : ("" : String).length = 0 := by decide
  rw [h6, h0] at hlen
  omega

theorem fallback_entries_ne_empty : ∀ p ∈ fallback_descriptions, p.2 ≠ "" := by decide

theorem fallbackOrDefault_ne_empty (tool_name : String) : fallbackOrDefault tool_name ≠ "" := by
  unfold fallbackOrDefault
  cases hl : lookupFallback tool_name with
  | none => exact append_tool_ne_empty tool_name
  | some d =>
    unfold lookupFallback at hl
    cases hf : fallback_descriptions.find? (fun p => p.1 == tool_name) with
    | none => rw [hf] at hl; exact Option.noConfusion hl
    | some p =>
      rw [hf, Option.map_some'] at hl
      have hmem := List.mem_of_find?_eq_some hf
      have hne := fallback_entries_ne_empty p hmem
      rw [Option.some.injEq] at hl
      rw [← hl]
      exact hne

/-- C8 (amended): `get_tool_description` is a total function into strings — it
never raises and never returns a null value — and on every degraded path
(adaptive layer disabled, store failure, or no active description found) it
returns the static fallback entry or the generic per-name default, both of
which are non-empty for every tool name.  When the store query does return an
active description, its stored text is returned verbatim (so the overall
result is non-empty only if that stored text is). -/
theorem C8_get_tool_description_total :
    (∀ tool_name : String, fallbackOrDefault tool_name ≠ "") ∧
    (∀ (storeFails : Bool) (tool_name environment : String) (store : Store),
      get_tool_description false storeFails tool_name environment store =
        fallbackOrDefault tool_name) ∧
    (∀ (tool_name environment : String) (store : Store),
      get_tool_description true true tool_name environment store =
        fallbackOrDefault tool_name) ∧
    (∀ (tool_name environment : String) (store : Store),
      bestActive tool_name environment store = none →
      get_tool_description true false tool_name environment store =
        fallbackOrDefault tool_name) ∧
    (∀ (tool_name environment : String) (store : Store) (d : ToolDescription),
      bestActive tool_name environment store = some d →
      get_tool_description true false tool_name environment store = d.description) := by
  refine ⟨fallbackOrDefault_ne_empty,
    fun storeFails tool_name environment store => rfl,
    fun tool_name environment store => rfl,
    fun tool_name environment store h => ?_,
    fun tool_name environment store d h => ?_⟩
  · show (match bestActive tool_name environment store with
      | some d => d.description
      | none => fallbackOrDefault tool_name) = fallbackOrDefault tool_name
    rw [h]
  · show (match bestActive tool_name environment store with
      | some d => d.description
      | none => fallbackOrDefault tool_name) = d.description
    rw [h]

/-- Active description with a stored non-empty text, for the C8 witness. -/
def c8ActiveDesc : ToolDescription :=
  toolDescriptionModel 0 "t" "1.0" "stored text" "production" "user" "active"

theorem C8_get_tool_description_total_witness :
    get_tool_description true false "unknown_operation" "production" (Store.mk [] []) =
      fallbackOrDefault "unknown_operation" ∧
    get_tool_description true false "t" "production" (Store.mk [c8ActiveDesc] []) =
      c8ActiveDesc.description :=
  ⟨C8_get_tool_description_total.2.2.2.1 "unknown_operation" "production" (Store.mk [] []) rfl,
   C8_get_tool_description_total.2.2.2.2 "t" "production" (Store.mk [c8ActiveDesc] [])
     c8ActiveDesc rfl⟩

/-- Active description whose stored text is the empty string, for the C8
counterexample. -/
def c8EmptyDesc : ToolDescription :=
  toolDescriptionModel 0 "search_memories" "1.0" "" "production" "user" "active"

/-- C8 counterexample: with the adaptive layer fully enabled and an active
description stored with empty text, `get_tool_description` returns the empty
string — so it does not return a non-empty string for every tool name (though
it still returns a string: it never raises and never returns a null value). -/
theorem C8_counterexample :
    get_tool_description true false "search_memories" "production"
      (Store.mk [c8EmptyDesc] []) = "" := rfl

/-! ## Claim C9 -/

/-- The `ToolDescriptionModel` that `seed_initial_descriptions` builds for a
fallback-table entry: version "1.0", active, created by `system_seeding`. -/
def seedModel (now : ℕ) (environment : String) (p : String × String) : ToolDescription :=
  toolDescriptionModel now p.1 "1.0" p.2 environment "system_seeding" "active"

/-- The store produced by seeding into an empty store. -/
def seededStore (now : ℕ) (environment : String) : Store :=
  Store.mk (fallback_descriptions.map (seedModel now environment)) []

theorem seedLoop_fresh (now : ℕ) (environment : String) (overwrite : Bool) :
    ∀ (l : List (String × String)) (store : Store),
      (∀ p ∈ l, check_existing_description p.1 "1.0" environment store = false) →
      (l.map Prod.fst).Nodup →
      seedLoop now environment overwrite l store =
        ⟨l.map Prod.fst, [],
         { store with descs := store.descs ++ l.map (seedModel now environment) }⟩ := by
  intro l
  induction l with
  | nil =>
    intro store h hn
    simp [seedLoop]
  | cons p rest ih =>
    intro store h hn
    obtain ⟨tool_name, description_text⟩ := p
    have hc : check_existing_description tool_name "1.0" environment store = false :=
      h (tool_name, description_text) (by simp)
    have hnotin : tool_name ∉ rest.map Prod.fst := by
      rw [List.map_cons, List.nodup_cons] at hn
      exact hn.1
    rw [seedLoop, hc]
    simp only [Bool.false_and, Bool.false_eq_true, if_false]
    have hrest : ∀ q ∈ rest, check_existing_description q.1 "1.0" environment
        { store with descs := store.descs ++
          [toolDescriptionModel now tool_name "1.0" description_text environment
            "system_seeding" "active"] } = false := by
      intro q hq
      have hq1 : check_existing_description q.1 "1.0" environment store = false :=
        h q (by simp [hq])
      have hqt : tool_name ≠ q.1 := by
        intro hcontra
        exact hnotin (hcontra ▸ List.mem_map_of_mem Prod.fst hq)
      unfold check_existing_description at hq1 ⊢
      simp only [List.any_append, List.any_cons, List.any_nil, Bool.or_false] at hq1 ⊢
      rw [hq1]
      simp only [Bool.false_or]
      unfold matchesKey toolDescriptionModel
      simp only []
      rw [beq_eq_false_iff_ne.mpr hqt]
      simp
    have hnr : (rest.map Prod.fst).Nodup := by
      rw [List.map_cons, List.nodup_cons] at hn
      exact hn.2
    simp only [create_tool_description]
    rw [ih _ hrest hnr]
    simp [List.append_assoc, seedModel]

theorem seedLoop_all_existing (now : ℕ) (environment : String) :
    ∀ (l : List (String × String)) (store : Store),
      (∀ p ∈ l, check_existing_description p.1 "1.0" environment store = true) →
      seedLoop now environment false l store = ⟨[], l.map Prod.fst, store⟩ := by
  intro l
  induction l with
  | nil =>
    intro store h
    rfl
  | cons p rest ih =>
    intro store h
    obtain ⟨tool_name, description_text⟩ := p
    have hc : check_existing_description tool_name "1.0" environment store = true :=
      h (tool_name, description_text) (by simp)
    rw [seedLoop, hc]
    simp only [Bool.not_false, Bool.and_true, if_true]
    rw [ih store (fun q hq => h q (by simp [hq]))]
    rfl

theorem seedLoop_overwrite (now : ℕ) (environment : String) :
    ∀ (l : List (String × String)) (store : Store),
      seedLoop now environment true l store =
        ⟨l.map Prod.fst, [],
         { store with descs := store.descs ++ l.map (seedModel now environment) }⟩ := by
  intro l
  induction l with
  | nil =>
    intro store
    simp [seedLoop]
  | cons p rest ih =>
    intro store
    obtain ⟨tool_name, description_text⟩ := p
    rw [seedLoop]
    simp only [Bool.not_true, Bool.and_false, Bool.false_eq_true, if_false]
    rw [ih]
    simp [create_tool_description, List.append_assoc, seedModel]

/-- C9: seeding into an empty store creates exactly one artifact per
fallback-description key — active, version "1.0", zero access count — and
reports every key created; re-seeding with `overwrite=False` skips every
existing key and changes nothing; re-seeding with `overwrite=True` reports
every key created again, appending a fresh seed artifact for each key. -/
theorem C9_seeding (now now2 now3 : ℕ) (environment : String) :
    seed_initial_descriptions now environment false (Store.mk [] []) =
      ⟨fallback_descriptions.map Prod.fst, [], seededStore now environment⟩ ∧
    (∀ k ∈ fallback_descriptions.map Prod.fst,
      ((seededStore now environment).descs.map ToolDescription.tool_name).count k = 1) ∧
    (∀ d ∈ (seededStore now environment).descs,
      d.status = "active" ∧ d.version = "1.0" ∧ d.access_count = 0) ∧
    seed_initial_descriptions now2 environment false (seededStore now environment) =
      ⟨[], fallback_descriptions.map Prod.fst, seededStore now environment⟩ ∧
    seed_initial_descriptions now3 environment true (seededStore now environment) =
      ⟨fallback_descriptions.map Prod.fst, [],
       { (seededStore now environment) with
          descs := (seededStore now environment).descs ++
            fallback_descriptions.map (seedModel now3 environment) }⟩ := by
  have hnames : (fallback_descriptions.map Prod.fst).Nodup := by decide
  have htools : ((seededStore now environment).descs.map ToolDescription.tool_name) =
      fallback_descriptions.map Prod.fst := by
    unfold seededStore
    rw [List.map_map]
    rfl
  refine ⟨?_, ?_, ?_, ?_, ?_⟩
  · unfold seed_initial_descriptions
    rw [seedLoop_fresh now environment false fallback_descriptions (Store.mk [] [])
      (fun p hp => rfl) hnames]
    simp [seededStore]
  · intro k hk
    rw [htools]
    exact List.count_eq_one_of_mem hnames hk
  · intro d hd
    unfold seededStore at hd
    obtain ⟨p, hp, rfl⟩ := List.mem_map.mp hd
    exact ⟨rfl, rfl, rfl⟩
  · unfold seed_initial_descriptions
    have hex : ∀ p ∈ fallback_descriptions, check_existing_description p.1 "1.0" environment
        (seededStore now environment) = true := by
      intro p hp
      unfold check_existing_description seededStore
      rw [List.any_eq_true]
      refine ⟨seedModel now environment p, List.mem_map_of_mem _ hp, ?_⟩
      unfold matchesKey seedModel toolDescriptionModel
      simp
    rw [seedLoop_all_existing now2 environment fallback_descriptions
      (seededStore now environment) hex]
  · unfold seed_initial_descriptions
    rw [seedLoop_overwrite now3 environment fallback_descriptions (seededStore now environment)]

theorem C9_seeding_witness :
    ((seededStore 0 "production").descs.map ToolDescription.tool_name).count
      "search_memories" = 1 ∧
    (seedModel 0 "production"
      ("delete_entities", "Delete multiple entities and their associated relations.")).status =
      "active" :=
  ⟨(C9_seeding 0 0 0 "production").2.1 "search_memories" (by decide),
   ((C9_seeding 0 0 0 "production").2.2.1
      (seedModel 0 "production"
        ("delete_entities", "Delete multiple entities and their associated relations."))
      (List.mem_map_of_mem _ (by decide))).1⟩

/-! ## Claim C2 -/

theorem rankLe_total (log : ℕ → ℚ) (x y : EntityNode × ℚ) :
    (rankLe log x y || rankLe log y x) = true := by
  unfold rankLe
  rw [Bool.or_eq_true, decide_eq_true_eq, decide_eq_true_eq]
  rcases lt_trichotomy (discoveryScore log x.1) (discoveryScore log y.1) with h | h | h
  · exact Or.inr (Or.inl h)
  · rcases le_total y.2 x.2 with hs | hs
    · exact Or.inl (Or.inr ⟨h, hs⟩)
    · exact Or.inr (Or.inr ⟨h.symm, hs⟩)
  · exact Or.inl (Or.inl h)

theorem rankLe_trans (log : ℕ → ℚ) (x y z : EntityNode × ℚ)
    (h1 : rankLe log x y = true) (h2 : rankLe log y z = true) : rankLe log x z = true := by
  unfold rankLe at h1 h2 ⊢
  rw [decide_eq_true_eq] at h1 h2 ⊢
  rcases h1 with h1 | ⟨h1e, h1s⟩
  · rcases h2 with h2 | ⟨h2e, h2s⟩
    · exact Or.inl (h2.trans h1)
    · exact Or.inl (h2e ▸ h1)
  · rcases h2 with h2 | ⟨h2e, h2s⟩
    · exact Or.inl (by rw [h1e]; exact h2)
    · exact Or.inr ⟨h1e.trans h2e, le_trans h2s h1s⟩

/-- C2: the discovery score of a candidate equals
`0.4*c + 0.3*e + 0.2*ln(a+1) + 0.1*w` with `c` defaulting to `0.5`, `e` to
`0`, `a` to `0` when missing; the status weight is 1 for `active`, 0.8 for
`testing`, 0.4 for `deprecated`, and 0.6 otherwise; the ranked candidate list
is a permutation of the (strengthened) text-match candidates ordered primarily
by discovery score descending and secondarily by raw match score descending.
(The access count entering `ln(a+1)` is the candidate's stored count at
scoring time: the query increments every matched entity before scoring.) -/
theorem C2_discovery_score_and_ordering :
    (∀ (log : ℕ → ℚ) (e : EntityNode), discoveryScore log e =
        (2/5) * e.confidence.getD (1/2) + (3/10) * e.effectiveness_score.getD 0 +
        (1/5) * log (e.access_count.getD 0 + 1) +
        (1/10) * statusWeight (e.status.getD "active")) ∧
    (statusWeight "active" = 1 ∧ statusWeight "testing" = 4/5 ∧
      statusWeight "deprecated" = 2/5) ∧
    (∀ st : String, st ≠ "active" → st ≠ "testing" → st ≠ "deprecated" →
      statusWeight st = 3/5) ∧
    (∀ (log : ℕ → ℚ) (now : ℕ) (candidates : List (EntityNode × ℚ)),
      (rankEntities log now candidates).Perm
        (candidates.map (fun p => (strengthenEntity now p.1, p.2)))) ∧
    (∀ (log : ℕ → ℚ) (now : ℕ) (candidates : List (EntityNode × ℚ)),
      (rankEntities log now candidates).Pairwise (fun x y =>
        discoveryScore log x.1 > discoveryScore log y.1 ∨
        (discoveryScore log x.1 = discoveryScore log y.1 ∧ x.2 ≥ y.2))) := by
  refine ⟨fun log e => by unfold discoveryScore; ring,
    ⟨rfl, rfl, rfl⟩,
    fun st h1 h2 h3 => ?_,
    fun log now candidates => List.mergeSort_perm _ (rankLe log),
    fun log now candidates => ?_⟩
  · have h1' : ¬ ((st == "active") = true) := by simpa using h1
    have h2' : ¬ ((st == "testing") = true) := by simpa using h2
    have h3' : ¬ ((st == "deprecated") = true) := by simpa using h3
    unfold statusWeight
    rw [if_neg h1', if_neg h2', if_neg h3']
  · have hs := List.sorted_mergeSort (rankLe_trans log) (rankLe_total log)
      (candidates.map (fun p => (strengthenEntity now p.1, p.2)))
    exact hs.imp (fun hab => by
      rw [rankLe, decide_eq_true_eq] at hab
      exact hab)

theorem C2_discovery_score_and_ordering_witness : statusWeight "archived" = 3/5 :=
  C2_discovery_score_and_ordering.2.2.1 "archived" (by decide) (by decide) (by decide)

end EvoMemory
